import Mathlib

/-!
# Verification of the Koing conversion-and-decision pipeline

A shallow embedding of the core of the `koing` repository (Latin-keystroke to
Hangul conversion): the Jamo algebra (`src/core/unicode.rs`), the two-set key
mapping (`src/core/jamo_mapper.rs`), the composition automaton
(`src/core/hangul_fsm.rs`), the converter (`src/core/converter.rs`), the
statistical validator (`src/ngram/validator.rs`, `src/ngram/syllable_validator.rs`,
`src/detection/validator.rs`), the heuristic auto-detector
(`src/detection/auto_detect.rs`, `src/detection/patterns.rs`) and the worker
thread's Convert branch (`src/main.rs`).

Modelling conventions:
* Rust `char` values and strings are modelled as Unicode codepoints (`Nat`)
  and lists of codepoints (`List Nat`); `str s` converts a Lean string literal.
* Rust `u32`/`usize` indices are modelled as `Nat` (all arithmetic in the
  embedded code is guarded before any multiplication, so no overflow occurs on
  the modelled paths).
* `f32`/`f64` values that are only ever built from integer counts, divided and
  compared (confidence scores, the rare-syllable ratio) are modelled as exact
  rationals (`Rat`); the transcendental n-gram log-score is abstracted as the
  model's scoring function (see `KoreanValidator`).
-/

namespace Koing

/-- Codepoints of a Lean string literal, used to state concrete scenarios. -/
def str (s : String) : List Nat := s.data.map Char.toNat

/-! ## Jamo algebra (`src/core/unicode.rs`) -/

/-- `HANGUL_SYLLABLE_BASE` -/
def HANGUL_SYLLABLE_BASE : Nat := 0xAC00

/-- `CHOSEONG_COUNT` -/
def CHOSEONG_COUNT : Nat := 19

/-- `JUNGSEONG_COUNT` -/
def JUNGSEONG_COUNT : Nat := 21

/-- `JONGSEONG_COUNT` -/
def JONGSEONG_COUNT : Nat := 28

/-- Rust `char::from_u32`: `Some` exactly on Unicode scalar values
(codepoints below the surrogate range, or above it and below `0x110000`). -/
def charFromU32 (n : Nat) : Option Nat :=
  if n < 0xD800 ∨ (0xDFFF < n ∧ n < 0x110000) then some n else none

/-- `compose_syllable` from `src/core/unicode.rs`. -/
def compose_syllable (choseong jungseong jongseong : Nat) : Option Nat :=
  if CHOSEONG_COUNT ≤ choseong ∨ JUNGSEONG_COUNT ≤ jungseong ∨
      JONGSEONG_COUNT ≤ jongseong then
    none
  else
    charFromU32 (HANGUL_SYLLABLE_BASE +
      (choseong * JUNGSEONG_COUNT + jungseong) * JONGSEONG_COUNT + jongseong)

/-- `decompose_syllable` from `src/core/unicode.rs`. -/
def decompose_syllable (c : Nat) : Option (Nat × Nat × Nat) :=
  if c < HANGUL_SYLLABLE_BASE ∨ HANGUL_SYLLABLE_BASE + 11171 < c then
    none
  else
    let offset := c - HANGUL_SYLLABLE_BASE
    some (offset / (JUNGSEONG_COUNT * JONGSEONG_COUNT),
          (offset / JONGSEONG_COUNT) % JUNGSEONG_COUNT,
          offset % JONGSEONG_COUNT)

/-- `combine_jungseong` from `src/core/unicode.rs` (the Rust `match` on the
pair of indices is rendered as the equivalent chain of equality tests). -/
def combine_jungseong (first second : Nat) : Option Nat :=
  if first = 8 ∧ second = 0 then some 9
  else if first = 8 ∧ second = 1 then some 10
  else if first = 8 ∧ second = 20 then some 11
  else if first = 13 ∧ second = 4 then some 14
  else if first = 13 ∧ second = 5 then some 15
  else if first = 13 ∧ second = 20 then some 16
  else if first = 18 ∧ second = 20 then some 19
  else none

/-- `combine_jongseong` from `src/core/unicode.rs`. -/
def combine_jongseong (first second : Nat) : Option Nat :=
  if first = 1 ∧ second = 19 then some 3
  else if first = 4 ∧ second = 22 then some 5
  else if first = 4 ∧ second = 27 then some 6
  else if first = 8 ∧ second = 1 then some 9
  else if first = 8 ∧ second = 16 then some 10
  else if first = 8 ∧ second = 17 then some 11
  else if first = 8 ∧ second = 19 then some 12
  else if first = 8 ∧ second = 25 then some 13
  else if first = 8 ∧ second = 26 then some 14
  else if first = 8 ∧ second = 27 then some 15
  else if first = 17 ∧ second = 19 then some 18
  else none

/-- `split_jongseong` from `src/core/unicode.rs`. -/
def split_jongseong (jong : Nat) : Option (Nat × Nat) :=
  if jong = 3 then some (1, 9)
  else if jong = 5 then some (4, 12)
  else if jong = 6 then some (4, 18)
  else if jong = 9 then some (8, 0)
  else if jong = 10 then some (8, 6)
  else if jong = 11 then some (8, 7)
  else if jong = 12 then some (8, 9)
  else if jong = 13 then some (8, 16)
  else if jong = 14 then some (8, 17)
  else if jong = 15 then some (8, 18)
  else if jong = 18 then some (17, 9)
  else none

/-- `jongseong_to_choseong` from `src/core/unicode.rs`. -/
def jongseong_to_choseong (jong : Nat) : Option Nat :=
  if jong = 1 then some 0
  else if jong = 2 then some 1
  else if jong = 4 then some 2
  else if jong = 7 then some 3
  else if jong = 8 then some 5
  else if jong = 16 then some 6
  else if jong = 17 then some 7
  else if jong = 19 then some 9
  else if jong = 20 then some 10
  else if jong = 21 then some 11
  else if jong = 22 then some 12
  else if jong = 23 then some 14
  else if jong = 24 then some 15
  else if jong = 25 then some 16
  else if jong = 26 then some 17
  else if jong = 27 then some 18
  else none

/-- The compatibility-Jamo codepoint table of `choseong_to_jamo_char`. -/
def choseongJamoCodes : List Nat :=
  [0x3131, 0x3132, 0x3134, 0x3137, 0x3138, 0x3139, 0x3141, 0x3142, 0x3143,
   0x3145, 0x3146, 0x3147, 0x3148, 0x3149, 0x314A, 0x314B, 0x314C, 0x314D,
   0x314E]

/-- `choseong_to_jamo_char` from `src/core/unicode.rs`. -/
def choseong_to_jamo_char (cho : Nat) : Option Nat :=
  if cho < 19 then charFromU32 (choseongJamoCodes.getD cho 0) else none

/-- The compatibility-vowel codepoint table of `jungseong_to_jamo_char`:
`0x314F` (ㅏ) through `0x3163` (ㅣ). -/
def jungseongJamoCodes : List Nat :=
  [0x314F, 0x3150, 0x3151, 0x3152, 0x3153, 0x3154, 0x3155, 0x3156, 0x3157,
   0x3158, 0x3159, 0x315A, 0x315B, 0x315C, 0x315D, 0x315E, 0x315F, 0x3160,
   0x3161, 0x3162, 0x3163]

/-- `jungseong_to_jamo_char` from `src/core/unicode.rs`. -/
def jungseong_to_jamo_char (jung : Nat) : Option Nat :=
  if jung < 21 then charFromU32 (jungseongJamoCodes.getD jung 0) else none

/-- The 7-row diphthong fusion table of `combine_jungseong`, as enumerated by
the specification: `((first, second), fused)`. -/
def jungseongFusionTable : List ((Nat × Nat) × Nat) :=
  [((8, 0), 9), ((8, 1), 10), ((8, 20), 11), ((13, 4), 14), ((13, 5), 15),
   ((13, 20), 16), ((18, 20), 19)]

/-- The 11-row compound-final fusion table of `combine_jongseong`, as
enumerated by the specification: `((first, second), fused)`. -/
def jongseongFusionTable : List ((Nat × Nat) × Nat) :=
  [((1, 19), 3), ((4, 22), 5), ((4, 27), 6), ((8, 1), 9), ((8, 16), 10),
   ((8, 17), 11), ((8, 19), 12), ((8, 25), 13), ((8, 26), 14), ((8, 27), 15),
   ((17, 19), 18)]

/-- The 11 compound final indices (the right-hand column of
`jongseongFusionTable`). -/
def compoundJongseongs : List Nat := [3, 5, 6, 9, 10, 11, 12, 13, 14, 15, 18]

/-! ## Theorems for the algebra claims -/

set_option maxHeartbeats 4000000 in
/-- Helper: `combine_jungseong` agrees with the 7-row fusion table. -/
lemma combine_jungseong_mem (a b r : Nat) :
    combine_jungseong a b = some r ↔ ((a, b), r) ∈ jungseongFusionTable := by
  constructor
  · intro h
    unfold combine_jungseong at h
    repeat' split at h
    all_goals
      first
      | (rename_i hc; obtain ⟨rfl, rfl⟩ := hc; injection h with h; subst h;
         decide)
      | exact Option.noConfusion h
  · intro h
    simp only [jungseongFusionTable, List.mem_cons, List.not_mem_nil, or_false,
      Prod.mk.injEq] at h
    rcases h with ⟨⟨rfl, rfl⟩, rfl⟩ | ⟨⟨rfl, rfl⟩, rfl⟩ | ⟨⟨rfl, rfl⟩, rfl⟩ |
      ⟨⟨rfl, rfl⟩, rfl⟩ | ⟨⟨rfl, rfl⟩, rfl⟩ | ⟨⟨rfl, rfl⟩, rfl⟩ |
      ⟨⟨rfl, rfl⟩, rfl⟩ <;> decide

set_option maxHeartbeats 4000000 in
/-- Helper: `combine_jongseong` agrees with the 11-row fusion table. -/
lemma combine_jongseong_mem (a b r : Nat) :
    combine_jongseong a b = some r ↔ ((a, b), r) ∈ jongseongFusionTable := by
  constructor
  · intro h
    unfold combine_jongseong at h
    repeat' split at h
    all_goals
      first
      | (rename_i hc; obtain ⟨rfl, rfl⟩ := hc; injection h with h; subst h;
         decide)
      | exact Option.noConfusion h
  · intro h
    simp only [jongseongFusionTable, List.mem_cons, List.not_mem_nil, or_false,
      Prod.mk.injEq] at h
    rcases h with ⟨⟨rfl, rfl⟩, rfl⟩ | ⟨⟨rfl, rfl⟩, rfl⟩ | ⟨⟨rfl, rfl⟩, rfl⟩ |
      ⟨⟨rfl, rfl⟩, rfl⟩ | ⟨⟨rfl, rfl⟩, rfl⟩ | ⟨⟨rfl, rfl⟩, rfl⟩ |
      ⟨⟨rfl, rfl⟩, rfl⟩ | ⟨⟨rfl, rfl⟩, rfl⟩ | ⟨⟨rfl, rfl⟩, rfl⟩ |
      ⟨⟨rfl, rfl⟩, rfl⟩ | ⟨⟨rfl, rfl⟩, rfl⟩ <;> decide

/-- **C1**: for every in-range triple `(i, m, f)` (`i < 19`, `m < 21`,
`f < 28`), `compose_syllable i m f` returns `some c` and
`decompose_syllable c` returns `some (i, m, f)`: decomposition is the exact
left inverse of composition on the whole in-range domain. -/
theorem decompose_leftInverse_compose (i m f : Nat)
    (hi : i < 19) (hm : m < 21) (hf : f < 28) :
    ∃ c, compose_syllable i m f = some c ∧
      decompose_syllable c = some (i, m, f) := by
  refine ⟨HANGUL_SYLLABLE_BASE + (i * 21 + m) * 28 + f, ?_, ?_⟩
  · unfold compose_syllable charFromU32
    unfold CHOSEONG_COUNT JUNGSEONG_COUNT JONGSEONG_COUNT HANGUL_SYLLABLE_BASE
    rw [if_neg (by omega), if_pos (by omega)]
  · unfold decompose_syllable
    unfold JUNGSEONG_COUNT JONGSEONG_COUNT HANGUL_SYLLABLE_BASE
    rw [if_neg (by omega)]
    simp only [Option.some.injEq, Prod.mk.injEq]
    omega

/-- Witness for `decompose_leftInverse_compose` at `(i, m, f) = (11, 20, 9)`
(the syllable 읽). -/
theorem decompose_leftInverse_compose_witness :
    ∃ c, compose_syllable 11 20 9 = some c ∧
      decompose_syllable c = some (11, 20, 9) :=
  decompose_leftInverse_compose 11 20 9 (by decide) (by decide) (by decide)

/-- **C4**: the guarded algebra functions return `some` exactly on their
documented domains: `compose_syllable i m f` is `some` iff `i < 19 ∧ m < 21 ∧
f < 28` (and `none` otherwise), and `decompose_syllable c` is `some` iff the
codepoint `c` lies in the Hangul syllable block
`[0xAC00, 0xAC00 + 11171]` (and `none` otherwise). -/
theorem algebra_domains :
    (∀ i m f : Nat, (compose_syllable i m f).isSome = true ↔
      (i < 19 ∧ m < 21 ∧ f < 28)) ∧
    (∀ c : Nat, (decompose_syllable c).isSome = true ↔
      (0xAC00 ≤ c ∧ c ≤ 0xAC00 + 11171)) := by
  constructor
  · intro i m f
    unfold compose_syllable charFromU32
    unfold CHOSEONG_COUNT JUNGSEONG_COUNT JONGSEONG_COUNT HANGUL_SYLLABLE_BASE
    constructor
    · intro h
      by_contra hc
      rw [if_pos (by omega)] at h
      simp at h
    · intro h
      rw [if_neg (by omega), if_pos (by omega)]
      rfl
  · intro c
    unfold decompose_syllable HANGUL_SYLLABLE_BASE
    constructor
    · intro h
      by_contra hc
      rw [if_pos (by omega)] at h
      simp at h
    · intro h
      rw [if_neg (by omega)]
      rfl

/-- **C5**: `combine_jungseong` returns `some` for exactly the 7 diphthong
pairs of `jungseongFusionTable` (with the listed fused index) and `none` for
every other pair; `combine_jongseong` returns `some` for exactly the 11
compound-final pairs of `jongseongFusionTable` and `none` for every other
pair. -/
theorem combine_tables_exact :
    (∀ a b r : Nat, combine_jungseong a b = some r ↔
      ((a, b), r) ∈ jungseongFusionTable) ∧
    (∀ a b r : Nat, combine_jongseong a b = some r ↔
      ((a, b), r) ∈ jongseongFusionTable) :=
  ⟨combine_jungseong_mem, combine_jongseong_mem⟩

set_option maxHeartbeats 4000000 in
/-- **C6**: `split_jongseong` is the exact inverse of the compound-final
table: whenever `combine_jongseong a b = some c`, `jongseong_to_choseong b`
yields some initial index `x` and `split_jongseong c = some (a, x)`; and for
every final index that is not one of the 11 compound finals,
`split_jongseong` returns `none`. -/
theorem split_jongseong_inverse :
    (∀ a b c : Nat, combine_jongseong a b = some c →
      ∃ x, jongseong_to_choseong b = some x ∧ split_jongseong c = some (a, x)) ∧
    (∀ j : Nat, j ∉ compoundJongseongs → split_jongseong j = none) := by
  constructor
  · intro a b c h
    rw [combine_jongseong_mem] at h
    simp only [jongseongFusionTable, List.mem_cons, List.not_mem_nil, or_false,
      Prod.mk.injEq] at h
    rcases h with ⟨⟨rfl, rfl⟩, rfl⟩ | ⟨⟨rfl, rfl⟩, rfl⟩ | ⟨⟨rfl, rfl⟩, rfl⟩ |
      ⟨⟨rfl, rfl⟩, rfl⟩ | ⟨⟨rfl, rfl⟩, rfl⟩ | ⟨⟨rfl, rfl⟩, rfl⟩ |
      ⟨⟨rfl, rfl⟩, rfl⟩ | ⟨⟨rfl, rfl⟩, rfl⟩ | ⟨⟨rfl, rfl⟩, rfl⟩ |
      ⟨⟨rfl, rfl⟩, rfl⟩ | ⟨⟨rfl, rfl⟩, rfl⟩ <;> exact ⟨_, rfl, rfl⟩
  · intro j hj
    unfold compoundJongseongs at hj
    simp only [List.mem_cons, List.not_mem_nil, or_false] at hj
    unfold split_jongseong
    split_ifs <;> first | rfl | (exfalso; omega)

/-- Witness for `split_jongseong_inverse`: its two universally quantified
parts applied at `(a, b, c) = (8, 1, 9)` (ㄹ+ㄱ→ㄺ) and at `j = 4` (ㄴ, a
simple final). -/
theorem split_jongseong_inverse_witness :
    (∃ x, jongseong_to_choseong 1 = some x ∧ split_jongseong 9 = some (8, x)) ∧
    split_jongseong 4 = none :=
  ⟨split_jongseong_inverse.1 8 1 9 (by decide),
   split_jongseong_inverse.2 4 (by decide)⟩

/-! ## Two-set key mapping (`src/core/jamo_mapper.rs`) -/

/-- The `Jamo` enum of `src/core/jamo_mapper.rs`: a consonant carries its
initial index and an optional final index (`none` for ㄸ, ㅃ, ㅉ); a vowel
carries its medial index. -/
inductive Jamo where
  | consonant (cho_index : Nat) (jong_index : Option Nat)
  | vowel (jung_index : Nat)
deriving DecidableEq, Repr

/-- The codepoint of a key character, for readability of `map_to_jamo`. -/
def key (c : Char) : Nat := c.toNat

/-- `map_to_jamo` from `src/core/jamo_mapper.rs` (the Rust `match` on the
key character is rendered as the equivalent chain of equality tests). -/
def map_to_jamo (c : Nat) : Option Jamo :=
  if c = key 'r' then some (.consonant 0 (some 1))
  else if c = key 'R' then some (.consonant 1 (some 2))
  else if c = key 's' then some (.consonant 2 (some 4))
  else if c = key 'e' then some (.consonant 3 (some 7))
  else if c = key 'E' then some (.consonant 4 none)
  else if c = key 'f' then some (.consonant 5 (some 8))
  else if c = key 'a' then some (.consonant 6 (some 16))
  else if c = key 'q' then some (.consonant 7 (some 17))
  else if c = key 'Q' then some (.consonant 8 none)
  else if c = key 't' then some (.consonant 9 (some 19))
  else if c = key 'T' then some (.consonant 10 (some 20))
  else if c = key 'd' then some (.consonant 11 (some 21))
  else if c = key 'w' then some (.consonant 12 (some 22))
  else if c = key 'W' then some (.consonant 13 none)
  else if c = key 'c' then some (.consonant 14 (some 23))
  else if c = key 'z' then some (.consonant 15 (some 24))
  else if c = key 'x' then some (.consonant 16 (some 25))
  else if c = key 'v' then some (.consonant 17 (some 26))
  else if c = key 'g' then some (.consonant 18 (some 27))
  else if c = key 'k' then some (.vowel 0)
  else if c = key 'o' then some (.vowel 1)
  else if c = key 'i' then some (.vowel 2)
  else if c = key 'O' then some (.vowel 3)
  else if c = key 'j' then some (.vowel 4)
  else if c = key 'p' then some (.vowel 5)
  else if c = key 'u' then some (.vowel 6)
  else if c = key 'P' then some (.vowel 7)
  else if c = key 'h' then some (.vowel 8)
  else if c = key 'y' then some (.vowel 12)
  else if c = key 'n' then some (.vowel 13)
  else if c = key 'b' then some (.vowel 17)
  else if c = key 'm' then some (.vowel 18)
  else if c = key 'l' then some (.vowel 20)
  else none

/-- `is_consonant` from `src/core/jamo_mapper.rs`. -/
def is_consonant (c : Nat) : Bool :=
  match map_to_jamo c with
  | some (.consonant _ _) => true
  | _ => false

/-- `is_vowel` from `src/core/jamo_mapper.rs`. -/
def is_vowel (c : Nat) : Bool :=
  match map_to_jamo c with
  | some (.vowel _) => true
  | _ => false

/-! ## Composition automaton (`src/core/hangul_fsm.rs`) -/

/-- The FSM `State` enum. -/
inductive FsmState where
  | empty
  | choseong
  | choseongJungseong
  | choseongJungseongJongseong
deriving DecidableEq, Repr

/-- The `HangulFsm` struct. The `fallback` field is ghost instrumentation
absent from the source: it records whether any of the source's silent
`None`-fallback branches (an `if let Some(c) = ... { output.push(c) }` whose
pattern failed, or the "theoretically unreachable" `jongseong_to_choseong`
failure branch of `feed_vowel`) was ever taken. It influences no other
field. -/
structure HangulFsm where
  state : FsmState
  choseong : Nat
  jungseong : Nat
  jongseong : Nat
  output : List Nat
  fallback : Bool
deriving DecidableEq, Repr

/-- `HangulFsm::new`. -/
def HangulFsm.new : HangulFsm :=
  { state := .empty, choseong := 0, jungseong := 0, jongseong := 0,
    output := [], fallback := false }

/-- `if let Some(c) = opt { self.output.push(c) }` — the silent else branch
sets the ghost `fallback` flag. -/
def HangulFsm.pushOpt (fsm : HangulFsm) (opt : Option Nat) : HangulFsm :=
  match opt with
  | some c => { fsm with output := fsm.output ++ [c] }
  | none => { fsm with fallback := true }

/-- `HangulFsm::reset_state`. -/
def HangulFsm.reset_state (fsm : HangulFsm) : HangulFsm :=
  { fsm with state := .empty, choseong := 0, jungseong := 0, jongseong := 0 }

/-- `HangulFsm::flush_current`. -/
def HangulFsm.flush_current (fsm : HangulFsm) : HangulFsm :=
  let fsm' :=
    match fsm.state with
    | .empty => fsm
    | .choseong => fsm.pushOpt (choseong_to_jamo_char fsm.choseong)
    | .choseongJungseong =>
        fsm.pushOpt (compose_syllable fsm.choseong fsm.jungseong 0)
    | .choseongJungseongJongseong =>
        fsm.pushOpt (compose_syllable fsm.choseong fsm.jungseong fsm.jongseong)
  fsm'.reset_state

/-- `HangulFsm::feed_consonant`. -/
def HangulFsm.feed_consonant (fsm : HangulFsm) (cho_index : Nat)
    (jong_index : Option Nat) : HangulFsm :=
  match fsm.state with
  | .empty => { fsm with choseong := cho_index, state := .choseong }
  | .choseong =>
      let fsm := fsm.pushOpt (choseong_to_jamo_char fsm.choseong)
      { fsm with choseong := cho_index }
  | .choseongJungseong =>
      match jong_index with
      | some jong =>
          { fsm with jongseong := jong, state := .choseongJungseongJongseong }
      | none =>
          let fsm := fsm.flush_current
          { fsm with choseong := cho_index, state := .choseong }
  | .choseongJungseongJongseong =>
      match jong_index with
      | some jong =>
          match combine_jongseong fsm.jongseong jong with
          | some combined => { fsm with jongseong := combined }
          | none =>
              let fsm := fsm.flush_current
              { fsm with choseong := cho_index, state := .choseong }
      | none =>
          let fsm := fsm.flush_current
          { fsm with choseong := cho_index, state := .choseong }

/-- `HangulFsm::feed_vowel`. -/
def HangulFsm.feed_vowel (fsm : HangulFsm) (jung_index : Nat) : HangulFsm :=
  match fsm.state with
  | .empty => fsm.pushOpt (jungseong_to_jamo_char jung_index)
  | .choseong =>
      { fsm with jungseong := jung_index, state := .choseongJungseong }
  | .choseongJungseong =>
      match combine_jungseong fsm.jungseong jung_index with
      | some combined => { fsm with jungseong := combined }
      | none =>
          let fsm := fsm.flush_current
          let fsm := fsm.pushOpt (jungseong_to_jamo_char jung_index)
          { fsm with state := .empty }
  | .choseongJungseongJongseong =>
      match split_jongseong fsm.jongseong with
      | some (remaining_jong, next_cho) =>
          let fsm := { fsm with jongseong := remaining_jong }.flush_current
          { fsm with choseong := next_cho, jungseong := jung_index,
                     state := .choseongJungseong }
      | none =>
          match jongseong_to_choseong fsm.jongseong with
          | some next_cho =>
              let fsm := { fsm with jongseong := 0 }.flush_current
              { fsm with choseong := next_cho, jungseong := jung_index,
                         state := .choseongJungseong }
          | none =>
              -- the source's "theoretically unreachable" branch
              let fsm := { fsm with fallback := true }.flush_current
              let fsm := fsm.pushOpt (jungseong_to_jamo_char jung_index)
              { fsm with state := .empty }

/-- `HangulFsm::feed`. -/
def HangulFsm.feed (fsm : HangulFsm) (jamo : Jamo) : HangulFsm :=
  match jamo with
  | .consonant cho_index jong_index => fsm.feed_consonant cho_index jong_index
  | .vowel jung_index => fsm.feed_vowel jung_index

/-- `HangulFsm::feed_passthrough`. -/
def HangulFsm.feed_passthrough (fsm : HangulFsm) (c : Nat) : HangulFsm :=
  let fsm := fsm.flush_current
  { fsm with output := fsm.output ++ [c] }

/-- `HangulFsm::finish`. -/
def HangulFsm.finish (fsm : HangulFsm) : List Nat :=
  fsm.flush_current.output

/-! ## Converter (`src/core/converter.rs`) -/

/-- One iteration of `convert`'s loop body. -/
def convertStep (fsm : HangulFsm) (c : Nat) : HangulFsm :=
  match map_to_jamo c with
  | some jamo => fsm.feed jamo
  | none => fsm.feed_passthrough c

/-- `convert` from `src/core/converter.rs`. -/
def convert (input : List Nat) : List Nat :=
  (input.foldl convertStep HangulFsm.new).finish

/-! ## Theorems for the converter claims -/

/-- **C2**: the converter reproduces the specification's scenario outputs:
`convert "rkskek" = "가나다"`, `convert "dkssudgktpdy" = "안녕하세요"`,
`convert "dlfr" = "읽"` (the final ㄹ fuses with ㄱ into the compound final
ㄺ), and `convert "rksk" = "가나"` (the pending simple final ㄴ migrates to
become the next syllable's initial when a vowel follows). -/
theorem convert_scenarios :
    convert (str "rkskek") = str "가나다" ∧
    convert (str "dkssudgktpdy") = str "안녕하세요" ∧
    convert (str "dlfr") = str "읽" ∧
    convert (str "rksk") = str "가나" := by
  refine ⟨?_, ?_, ?_, ?_⟩ <;> decide

/-- Helper: flushing an `empty`-state FSM only resets it. -/
lemma flush_current_empty (fsm : HangulFsm) (hs : fsm.state = .empty) :
    fsm.flush_current = fsm.reset_state := by
  unfold HangulFsm.flush_current
  rw [hs]

/-- Helper for C7: feeding only unmapped characters from an `empty`-state FSM
appends them verbatim and keeps the state `empty`. -/
lemma foldl_passthrough (cs : List Nat) :
    ∀ fsm : HangulFsm, (∀ c ∈ cs, map_to_jamo c = none) → fsm.state = .empty →
      (cs.foldl convertStep fsm).output = fsm.output ++ cs ∧
      (cs.foldl convertStep fsm).state = .empty := by
  induction cs with
  | nil => intro fsm _ hs; exact ⟨by simp, hs⟩
  | cons c cs ih =>
    intro fsm h hs
    have hc : map_to_jamo c = none := h c (List.mem_cons_self c cs)
    have hrest : ∀ x ∈ cs, map_to_jamo x = none :=
      fun x hx => h x (List.mem_cons_of_mem c hx)
    have hstep : convertStep fsm c = { fsm.reset_state with output := fsm.output ++ [c] } := by
      unfold convertStep HangulFsm.feed_passthrough
      rw [hc, flush_current_empty fsm hs]
      rfl
    have hso : (convertStep fsm c).state = .empty := by rw [hstep]; rfl
    obtain ⟨ho, hst⟩ := ih (convertStep fsm c) hrest hso
    rw [List.foldl_cons]
    refine ⟨?_, hst⟩
    rw [ho, hstep]
    simp [HangulFsm.reset_state]

/-- **C7**: for every input string in which no character has a Jamo mapping,
`convert` is the identity: such input passes through verbatim, in order,
with nothing added or dropped. -/
theorem convert_passthrough_id (s : List Nat)
    (h : ∀ c ∈ s, map_to_jamo c = none) : convert s = s := by
  unfold convert HangulFsm.finish
  obtain ⟨hout, hstate⟩ := foldl_passthrough s HangulFsm.new h rfl
  rw [flush_current_empty _ hstate]
  simpa [HangulFsm.reset_state] using hout

/-- Witness for `convert_passthrough_id` at `s = "1 2!"` (no character of
which has a Jamo mapping). -/
theorem convert_passthrough_id_witness :
    convert (str "1 2!") = str "1 2!" :=
  convert_passthrough_id (str "1 2!") (by decide)

/-! ## Infrastructure for the composition-automaton invariant (C10) -/

/-- The claim's in-range condition on a fed Jamo: `cho_index < 19`,
`jung_index < 21`, and `jong_index < 28` when present. -/
def JamoInRange : Jamo → Prop
  | .consonant cho jong =>
      cho < 19 ∧ (match jong with | none => True | some x => x < 28)
  | .vowel jung => jung < 21

instance : DecidablePred JamoInRange := fun j => by
  cases j with
  | consonant cho jong =>
    cases jong with
    | none => exact decidable_of_iff (cho < 19) (by simp [JamoInRange])
    | some x =>
        exact decidable_of_iff (cho < 19 ∧ x < 28) (by simp [JamoInRange])
  | vowel jung => exact decidable_of_iff (jung < 21) (by simp [JamoInRange])

/-- The amended in-range condition: a present final index is additionally
nonzero (`0` is the "no final" slot). Every Jamo produced by `map_to_jamo`
satisfies it. -/
def JamoWellFormed : Jamo → Prop
  | .consonant cho jong =>
      cho < 19 ∧ (match jong with | none => True | some x => 1 ≤ x ∧ x < 28)
  | .vowel jung => jung < 21

instance : DecidablePred JamoWellFormed := fun j => by
  cases j with
  | consonant cho jong =>
    cases jong with
    | none => exact decidable_of_iff (cho < 19) (by simp [JamoWellFormed])
    | some x =>
        exact decidable_of_iff (cho < 19 ∧ (1 ≤ x ∧ x < 28))
          (by simp [JamoWellFormed])
  | vowel jung => exact decidable_of_iff (jung < 21) (by simp [JamoWellFormed])

/-- The automaton invariant: the stored indices used by the current state are
in range, and a pending final is nonzero. -/
def FsmInv (fsm : HangulFsm) : Prop :=
  match fsm.state with
  | .empty => True
  | .choseong => fsm.choseong < 19
  | .choseongJungseong => fsm.choseong < 19 ∧ fsm.jungseong < 21
  | .choseongJungseongJongseong =>
      fsm.choseong < 19 ∧ fsm.jungseong < 21 ∧
      1 ≤ fsm.jongseong ∧ fsm.jongseong < 28

/-- What `flush_current` needs in order not to take a fallback branch. -/
def FlushInv (fsm : HangulFsm) : Prop :=
  match fsm.state with
  | .empty => True
  | .choseong => fsm.choseong < 19
  | .choseongJungseong => fsm.choseong < 19 ∧ fsm.jungseong < 21
  | .choseongJungseongJongseong =>
      fsm.choseong < 19 ∧ fsm.jungseong < 21 ∧ fsm.jongseong < 28

/-- Helper: every Jamo `map_to_jamo` produces is well formed. -/
lemma mapToJamo_wellFormed (c : Nat) (j : Jamo) (h : map_to_jamo c = some j) :
    JamoWellFormed j := by
  unfold map_to_jamo at h
  by_cases h0 : c = key 'r'
  · rw [if_pos h0] at h; injection h with h; subst h; decide
  rw [if_neg h0] at h
  by_cases h1 : c = key 'R'
  · rw [if_pos h1] at h; injection h with h; subst h; decide
  rw [if_neg h1] at h
  by_cases h2 : c = key 's'
  · rw [if_pos h2] at h; injection h with h; subst h; decide
  rw [if_neg h2] at h
  by_cases h3 : c = key 'e'
  · rw [if_pos h3] at h; injection h with h; subst h; decide
  rw [if_neg h3] at h
  by_cases h4 : c = key 'E'
  · rw [if_pos h4] at h; injection h with h; subst h; decide
  rw [if_neg h4] at h
  by_cases h5 : c = key 'f'
  · rw [if_pos h5] at h; injection h with h; subst h; decide
  rw [if_neg h5] at h
  by_cases h6 : c = key 'a'
  · rw [if_pos h6] at h; injection h with h; subst h; decide
  rw [if_neg h6] at h
  by_cases h7 : c = key 'q'
  · rw [if_pos h7] at h; injection h with h; subst h; decide
  rw [if_neg h7] at h
  by_cases h8 : c = key 'Q'
  · rw [if_pos h8] at h; injection h with h; subst h; decide
  rw [if_neg h8] at h
  by_cases h9 : c = key 't'
  · rw [if_pos h9] at h; injection h with h; subst h; decide
  rw [if_neg h9] at h
  by_cases h10 : c = key 'T'
  · rw [if_pos h10] at h; injection h with h; subst h; decide
  rw [if_neg h10] at h
  by_cases h11 : c = key 'd'
  · rw [if_pos h11] at h; injection h with h; subst h; decide
  rw [if_neg h11] at h
  by_cases h12 : c = key 'w'
  · rw [if_pos h12] at h; injection h with h; subst h; decide
  rw [if_neg h12] at h
  by_cases h13 : c = key 'W'
  · rw [if_pos h13] at h; injection h with h; subst h; decide
  rw [if_neg h13] at h
  by_cases h14 : c = key 'c'
  · rw [if_pos h14] at h; injection h with h; subst h; decide
  rw [if_neg h14] at h
  by_cases h15 : c = key 'z'
  · rw [if_pos h15] at h; injection h with h; subst h; decide
  rw [if_neg h15] at h
  by_cases h16 : c = key 'x'
  · rw [if_pos h16] at h; injection h with h; subst h; decide
  rw [if_neg h16] at h
  by_cases h17 : c = key 'v'
  · rw [if_pos h17] at h; injection h with h; subst h; decide
  rw [if_neg h17] at h
  by_cases h18 : c = key 'g'
  · rw [if_pos h18] at h; injection h with h; subst h; decide
  rw [if_neg h18] at h
  by_cases h19 : c = key 'k'
  · rw [if_pos h19] at h; injection h with h; subst h; decide
  rw [if_neg h19] at h
  by_cases h20 : c = key 'o'
  · rw [if_pos h20] at h; injection h with h; subst h; decide
  rw [if_neg h20] at h
  by_cases h21 : c = key 'i'
  · rw [if_pos h21] at h; injection h with h; subst h; decide
  rw [if_neg h21] at h
  by_cases h22 : c = key 'O'
  · rw [if_pos h22] at h; injection h with h; subst h; decide
  rw [if_neg h22] at h
  by_cases h23 : c = key 'j'
  · rw [if_pos h23] at h; injection h with h; subst h; decide
  rw [if_neg h23] at h
  by_cases h24 : c = key 'p'
  · rw [if_pos h24] at h; injection h with h; subst h; decide
  rw [if_neg h24] at h
  by_cases h25 : c = key 'u'
  · rw [if_pos h25] at h; injection h with h; subst h; decide
  rw [if_neg h25] at h
  by_cases h26 : c = key 'P'
  · rw [if_pos h26] at h; injection h with h; subst h; decide
  rw [if_neg h26] at h
  by_cases h27 : c = key 'h'
  · rw [if_pos h27] at h; injection h with h; subst h; decide
  rw [if_neg h27] at h
  by_cases h28 : c = key 'y'
  · rw [if_pos h28] at h; injection h with h; subst h; decide
  rw [if_neg h28] at h
  by_cases h29 : c = key 'n'
  · rw [if_pos h29] at h; injection h with h; subst h; decide
  rw [if_neg h29] at h
  by_cases h30 : c = key 'b'
  · rw [if_pos h30] at h; injection h with h; subst h; decide
  rw [if_neg h30] at h
  by_cases h31 : c = key 'm'
  · rw [if_pos h31] at h; injection h with h; subst h; decide
  rw [if_neg h31] at h
  by_cases h32 : c = key 'l'
  · rw [if_pos h32] at h; injection h with h; subst h; decide
  rw [if_neg h32] at h
  exact Option.noConfusion h

/-- Helper: a fused diphthong index is a medial index. -/
lemma combine_jungseong_lt (a b r : Nat) (h : combine_jungseong a b = some r) :
    r < 21 := by
  rw [combine_jungseong_mem] at h
  simp only [jungseongFusionTable, List.mem_cons, List.not_mem_nil, or_false,
    Prod.mk.injEq] at h
  omega

/-- Helper: a fused compound final index is a nonzero final index. -/
lemma combine_jongseong_bounds (a b r : Nat)
    (h : combine_jongseong a b = some r) : 1 ≤ r ∧ r < 28 := by
  rw [combine_jongseong_mem] at h
  simp only [jongseongFusionTable, List.mem_cons, List.not_mem_nil, or_false,
    Prod.mk.injEq] at h
  omega

/-- Helper: `split_jongseong` returns a nonzero final index and an initial
index. -/
lemma split_jongseong_bounds (jong r n : Nat)
    (h : split_jongseong jong = some (r, n)) :
    (1 ≤ r ∧ r < 28) ∧ n < 19 := by
  unfold split_jongseong at h
  by_cases h0 : jong = 3
  · rw [if_pos h0] at h; injection h with h; rw [Prod.mk.injEq] at h; omega
  rw [if_neg h0] at h
  by_cases h1 : jong = 5
  · rw [if_pos h1] at h; injection h with h; rw [Prod.mk.injEq] at h; omega
  rw [if_neg h1] at h
  by_cases h2 : jong = 6
  · rw [if_pos h2] at h; injection h with h; rw [Prod.mk.injEq] at h; omega
  rw [if_neg h2] at h
  by_cases h3 : jong = 9
  · rw [if_pos h3] at h; injection h with h; rw [Prod.mk.injEq] at h; omega
  rw [if_neg h3] at h
  by_cases h4 : jong = 10
  · rw [if_pos h4] at h; injection h with h; rw [Prod.mk.injEq] at h; omega
  rw [if_neg h4] at h
  by_cases h5 : jong = 11
  · rw [if_pos h5] at h; injection h with h; rw [Prod.mk.injEq] at h; omega
  rw [if_neg h5] at h
  by_cases h6 : jong = 12
  · rw [if_pos h6] at h; injection h with h; rw [Prod.mk.injEq] at h; omega
  rw [if_neg h6] at h
  by_cases h7 : jong = 13
  · rw [if_pos h7] at h; injection h with h; rw [Prod.mk.injEq] at h; omega
  rw [if_neg h7] at h
  by_cases h8 : jong = 14
  · rw [if_pos h8] at h; injection h with h; rw [Prod.mk.injEq] at h; omega
  rw [if_neg h8] at h
  by_cases h9 : jong = 15
  · rw [if_pos h9] at h; injection h with h; rw [Prod.mk.injEq] at h; omega
  rw [if_neg h9] at h
  by_cases h10 : jong = 18
  · rw [if_pos h10] at h; injection h with h; rw [Prod.mk.injEq] at h; omega
  rw [if_neg h10] at h
  exact Option.noConfusion h

/-- Helper: `jongseong_to_choseong` returns an initial index. -/
lemma jongseong_to_choseong_lt (jong n : Nat)
    (h : jongseong_to_choseong jong = some n) : n < 19 := by
  unfold jongseong_to_choseong at h
  by_cases h0 : jong = 1
  · rw [if_pos h0] at h; injection h with h; omega
  rw [if_neg h0] at h
  by_cases h1 : jong = 2
  · rw [if_pos h1] at h; injection h with h; omega
  rw [if_neg h1] at h
  by_cases h2 : jong = 4
  · rw [if_pos h2] at h; injection h with h; omega
  rw [if_neg h2] at h
  by_cases h3 : jong = 7
  · rw [if_pos h3] at h; injection h with h; omega
  rw [if_neg h3] at h
  by_cases h4 : jong = 8
  · rw [if_pos h4] at h; injection h with h; omega
  rw [if_neg h4] at h
  by_cases h5 : jong = 16
  · rw [if_pos h5] at h; injection h with h; omega
  rw [if_neg h5] at h
  by_cases h6 : jong = 17
  · rw [if_pos h6] at h; injection h with h; omega
  rw [if_neg h6] at h
  by_cases h7 : jong = 19
  · rw [if_pos h7] at h; injection h with h; omega
  rw [if_neg h7] at h
  by_cases h8 : jong = 20
  · rw [if_pos h8] at h; injection h with h; omega
  rw [if_neg h8] at h
  by_cases h9 : jong = 21
  · rw [if_pos h9] at h; injection h with h; omega
  rw [if_neg h9] at h
  by_cases h10 : jong = 22
  · rw [if_pos h10] at h; injection h with h; omega
  rw [if_neg h10] at h
  by_cases h11 : jong = 23
  · rw [if_pos h11] at h; injection h with h; omega
  rw [if_neg h11] at h
  by_cases h12 : jong = 24
  · rw [if_pos h12] at h; injection h with h; omega
  rw [if_neg h12] at h
  by_cases h13 : jong = 25
  · rw [if_pos h13] at h; injection h with h; omega
  rw [if_neg h13] at h
  by_cases h14 : jong = 26
  · rw [if_pos h14] at h; injection h with h; omega
  rw [if_neg h14] at h
  by_cases h15 : jong = 27
  · rw [if_pos h15] at h; injection h with h; omega
  rw [if_neg h15] at h
  exact Option.noConfusion h

/-- Helper: on a nonzero final index, `split_jongseong` and
`jongseong_to_choseong` cover every case: if the former fails the latter
succeeds. -/
lemma jongseong_migration_total :
    ∀ jong, jong < 28 → 1 ≤ jong → split_jongseong jong = none →
      (jongseong_to_choseong jong).isSome = true := by decide

/-- Helper: the compatibility-Jamo table is total on initial indices. -/
lemma choseong_jamo_isSome :
    ∀ cho, cho < 19 → (choseong_to_jamo_char cho).isSome = true := by decide

/-- Helper: the compatibility-vowel table is total on medial indices. -/
lemma jungseong_jamo_isSome :
    ∀ jung, jung < 21 → (jungseong_to_jamo_char jung).isSome = true := by
  decide

/-- Helper: composition succeeds on in-range indices. -/
lemma compose_syllable_isSome (i m f : Nat) (hi : i < 19) (hm : m < 21)
    (hf : f < 28) : (compose_syllable i m f).isSome = true := by
  unfold compose_syllable charFromU32
  unfold CHOSEONG_COUNT JUNGSEONG_COUNT JONGSEONG_COUNT HANGUL_SYLLABLE_BASE
  rw [if_neg (by omega), if_pos (by omega)]
  rfl

/-- Helper: `pushOpt` never changes the state or pending indices. -/
lemma pushOpt_fields (fsm : HangulFsm) (o : Option Nat) :
    (fsm.pushOpt o).state = fsm.state ∧
    (fsm.pushOpt o).choseong = fsm.choseong ∧
    (fsm.pushOpt o).jungseong = fsm.jungseong ∧
    (fsm.pushOpt o).jongseong = fsm.jongseong := by
  cases o <;> simp [HangulFsm.pushOpt]

/-- Helper: pushing a present character does not raise the ghost flag. -/
lemma pushOpt_fallback (fsm : HangulFsm) (o : Option Nat)
    (h : o.isSome = true) : (fsm.pushOpt o).fallback = fsm.fallback := by
  cases o with
  | none => simp at h
  | some c => simp [HangulFsm.pushOpt]

/-- Helper: `flush_current` always resets the state and indices. -/
lemma flush_resets (fsm : HangulFsm) :
    fsm.flush_current.state = .empty ∧ fsm.flush_current.choseong = 0 ∧
    fsm.flush_current.jungseong = 0 ∧ fsm.flush_current.jongseong = 0 := by
  rcases fsm with ⟨st, cho, jung, jong, out, fb⟩
  cases st <;> exact ⟨rfl, rfl, rfl, rfl⟩

/-- Helper: under `FlushInv`, flushing takes no fallback branch. -/
lemma flush_fallback (fsm : HangulFsm) (h : FlushInv fsm) :
    fsm.flush_current.fallback = fsm.fallback := by
  rcases fsm with ⟨st, cho, jung, jong, out, fb⟩
  cases st with
  | empty => rfl
  | choseong =>
      obtain ⟨x, hx⟩ := Option.isSome_iff_exists.mp (choseong_jamo_isSome cho h)
      simp [HangulFsm.flush_current, HangulFsm.reset_state, HangulFsm.pushOpt,
        hx]
  | choseongJungseong =>
      obtain ⟨x, hx⟩ := Option.isSome_iff_exists.mp
        (compose_syllable_isSome cho jung 0 h.1 h.2 (by omega))
      simp [HangulFsm.flush_current, HangulFsm.reset_state, HangulFsm.pushOpt,
        hx]
  | choseongJungseongJongseong =>
      obtain ⟨x, hx⟩ := Option.isSome_iff_exists.mp
        (compose_syllable_isSome cho jung jong h.1 h.2.1 h.2.2)
      simp [HangulFsm.flush_current, HangulFsm.reset_state, HangulFsm.pushOpt,
        hx]

/-- Helper: the automaton invariant implies the flush precondition. -/
lemma fsmInv_flushInv (fsm : HangulFsm) (h : FsmInv fsm) : FlushInv fsm := by
  rcases fsm with ⟨st, cho, jung, jong, out, fb⟩
  cases st with
  | empty => trivial
  | choseong => exact h
  | choseongJungseong => exact h
  | choseongJungseongJongseong => exact ⟨h.1, h.2.1, h.2.2.2⟩

/-- Helper: feeding one well-formed Jamo preserves the invariant and raises no
fallback. -/
lemma feed_pres (fsm : HangulFsm) (j : Jamo) (hw : JamoWellFormed j)
    (hI : FsmInv fsm) :
    FsmInv (fsm.feed j) ∧ (fsm.feed j).fallback = fsm.fallback := by
  rcases fsm with ⟨st, cho, jung, jong, out, fb⟩
  cases j with
  | consonant ci jo =>
    obtain ⟨hci, hjo⟩ := hw
    cases st with
    | empty =>
        exact ⟨hci, rfl⟩
    | choseong =>
        obtain ⟨x, hx⟩ :=
          Option.isSome_iff_exists.mp (choseong_jamo_isSome cho hI)
        simp only [HangulFsm.feed, HangulFsm.feed_consonant, HangulFsm.pushOpt,
          hx]
        exact ⟨hci, trivial⟩
    | choseongJungseong =>
        cases jo with
        | some jg =>
            simp only [HangulFsm.feed, HangulFsm.feed_consonant]
            exact ⟨⟨hI.1, hI.2, hjo.1, hjo.2⟩, trivial⟩
        | none =>
            simp only [HangulFsm.feed, HangulFsm.feed_consonant]
            exact ⟨hci, flush_fallback _ hI⟩
    | choseongJungseongJongseong =>
        cases jo with
        | some jg =>
            simp only [HangulFsm.feed, HangulFsm.feed_consonant]
            cases hcomb : combine_jongseong jong jg with
            | some combined =>
                simp only [hcomb]
                have hb := combine_jongseong_bounds jong jg combined hcomb
                exact ⟨⟨hI.1, hI.2.1, hb.1, hb.2⟩, trivial⟩
            | none =>
                simp only [hcomb]
                exact ⟨hci, flush_fallback _ (fsmInv_flushInv _ hI)⟩
        | none =>
            simp only [HangulFsm.feed, HangulFsm.feed_consonant]
            exact ⟨hci, flush_fallback _ (fsmInv_flushInv _ hI)⟩
  | vowel vi =>
    cases st with
    | empty =>
        obtain ⟨x, hx⟩ :=
          Option.isSome_iff_exists.mp (jungseong_jamo_isSome vi hw)
        simp only [HangulFsm.feed, HangulFsm.feed_vowel, HangulFsm.pushOpt, hx]
        exact ⟨trivial, trivial⟩
    | choseong =>
        exact ⟨⟨hI, hw⟩, rfl⟩
    | choseongJungseong =>
        simp only [HangulFsm.feed, HangulFsm.feed_vowel]
        cases hcomb : combine_jungseong jung vi with
        | some combined =>
            simp only [hcomb]
            exact ⟨⟨hI.1, combine_jungseong_lt jung vi combined hcomb⟩,
              trivial⟩
        | none =>
            simp only [hcomb]
            obtain ⟨x, hx⟩ :=
              Option.isSome_iff_exists.mp (jungseong_jamo_isSome vi hw)
            simp only [hx, HangulFsm.pushOpt]
            exact ⟨trivial, flush_fallback _ hI⟩
    | choseongJungseongJongseong =>
        simp only [HangulFsm.feed, HangulFsm.feed_vowel]
        cases hsplit : split_jongseong jong with
        | some p =>
            obtain ⟨r, n⟩ := p
            simp only [hsplit]
            have hb := split_jongseong_bounds jong r n hsplit
            refine ⟨⟨hb.2, hw⟩, ?_⟩
            exact flush_fallback _ ⟨hI.1, hI.2.1, hb.1.2⟩
        | none =>
            simp only [hsplit]
            cases hj2c : jongseong_to_choseong jong with
            | some n =>
                simp only [hj2c]
                refine ⟨⟨jongseong_to_choseong_lt jong n hj2c, hw⟩, ?_⟩
                exact flush_fallback _
                  ⟨hI.1, hI.2.1, show (0 : Nat) < 28 by omega⟩
            | none =>
                have htot := jongseong_migration_total jong hI.2.2.2 hI.2.2.1
                  hsplit
                rw [hj2c] at htot
                simp at htot

/-- Helper: feeding a list of well-formed Jamos preserves the invariant and
leaves the ghost flag unchanged. -/
lemma foldl_feed_pres (js : List Jamo) :
    ∀ fsm : HangulFsm, (∀ j ∈ js, JamoWellFormed j) → FsmInv fsm →
      FsmInv (js.foldl HangulFsm.feed fsm) ∧
      (js.foldl HangulFsm.feed fsm).fallback = fsm.fallback := by
  induction js with
  | nil => intro fsm _ hI; exact ⟨hI, rfl⟩
  | cons j js ih =>
    intro fsm h hI
    have hw := h j (List.mem_cons_self j js)
    have hrest : ∀ x ∈ js, JamoWellFormed x :=
      fun x hx => h x (List.mem_cons_of_mem j hx)
    obtain ⟨hI1, hf1⟩ := feed_pres fsm j hw hI
    obtain ⟨hI2, hf2⟩ := ih (fsm.feed j) hrest hI1
    rw [List.foldl_cons]
    exact ⟨hI2, by rw [hf2, hf1]⟩

/-- **C10** (amended: a present final index must additionally be nonzero,
`1 ≤ jong_index < 28` — which still holds for every Jamo produced by
`map_to_jamo`): starting from `HangulFsm.new`, feeding any sequence of such
Jamos keeps the stored `(choseong, jungseong, jongseong)` indices in range
(`FsmInv`), and neither the feeds nor the final flush ever take a silent
`None`-fallback branch (ghost flag `fallback` stays `false`), so no pending
syllable is dropped from the output. -/
theorem fsm_inRange_no_fallback :
    (∀ c j, map_to_jamo c = some j → JamoWellFormed j) ∧
    (∀ js : List Jamo, (∀ j ∈ js, JamoWellFormed j) →
      FsmInv (js.foldl HangulFsm.feed HangulFsm.new) ∧
      (js.foldl HangulFsm.feed HangulFsm.new).fallback = false ∧
      (js.foldl HangulFsm.feed HangulFsm.new).flush_current.fallback
        = false) := by
  refine ⟨mapToJamo_wellFormed, fun js h => ?_⟩
  obtain ⟨hI, hf⟩ := foldl_feed_pres js HangulFsm.new h trivial
  refine ⟨hI, hf, ?_⟩
  rw [flush_fallback _ (fsmInv_flushInv _ hI)]
  exact hf

/-- Witness for `fsm_inRange_no_fallback`: its first part applied at the key
'r', and its second part applied to the Jamo sequence of "rk" (ㄱ, ㅏ). -/
theorem fsm_inRange_no_fallback_witness :
    JamoWellFormed (Jamo.consonant 0 (some 1)) ∧
    (FsmInv ([Jamo.consonant 0 (some 1),
        Jamo.vowel 0].foldl HangulFsm.feed HangulFsm.new) ∧
      ([Jamo.consonant 0 (some 1),
        Jamo.vowel 0].foldl HangulFsm.feed HangulFsm.new).fallback = false ∧
      ([Jamo.consonant 0 (some 1),
        Jamo.vowel 0].foldl HangulFsm.feed
          HangulFsm.new).flush_current.fallback = false) :=
  ⟨fsm_inRange_no_fallback.1 (key 'r') (Jamo.consonant 0 (some 1)) (by decide),
   fsm_inRange_no_fallback.2 [Jamo.consonant 0 (some 1), Jamo.vowel 0]
     (by decide)⟩

/-- A Jamo sequence that satisfies the claim's stated in-range hypothesis
(`cho_index < 19`, `jung_index < 21`, `jong_index < 28` when present) but not
the amended one: its consonants carry `jong_index = some 0`. -/
def claimJamos : List Jamo :=
  [.consonant 0 (some 0), .vowel 0, .consonant 0 (some 0), .vowel 0]

/-- Counterexample to C10 as stated: every Jamo of `claimJamos` satisfies the
claim's in-range bounds, yet feeding them takes the "theoretically
unreachable" `jongseong_to_choseong` failure branch of `feed_vowel` (the
ghost flag ends `true`), because a stored final index `0` defeats both
`split_jongseong` and `jongseong_to_choseong`. -/
theorem fsm_fallback_counterexample :
    (∀ j ∈ claimJamos, JamoInRange j) ∧
    (claimJamos.foldl HangulFsm.feed HangulFsm.new).fallback = true :=
  ⟨by decide, by decide⟩

/-! ## Conversion-result validation (`src/detection/validator.rs`) -/

/-- `has_incomplete_jamo` from `src/detection/validator.rs`: is any codepoint
in the compatibility-Jamo block `[0x3131, 0x318E]`? -/
def has_incomplete_jamo (text : List Nat) : Bool :=
  text.any fun cp => decide (0x3131 ≤ cp) && decide (cp ≤ 0x318E)

/-! ## Syllable-structure check (`src/ngram/syllable_validator.rs`) -/

/-- `is_rare_onset` from `src/ngram/syllable_validator.rs` (the sequence of
early-return `if`s, in source order). -/
def is_rare_onset (cho jung : Nat) : Bool :=
  if jung = 3 ∧ ¬(cho = 0 ∨ cho = 11 ∨ cho = 12) then true
  else if jung = 10 ∧ cho ≠ 11 then true
  else if jung = 15 ∧ cho ≠ 11 then true
  else if (cho = 1 ∨ cho = 4 ∨ cho = 8 ∨ cho = 13) ∧
      (jung = 2 ∨ jung = 7 ∨ jung = 12 ∨ jung = 17 ∨ jung = 19) then true
  else if jung = 2 ∧ ¬(cho = 0 ∨ cho = 2 ∨ cho = 9 ∨ cho = 11) then true
  else false

/-- `is_rare_transition` from `src/ngram/syllable_validator.rs`. -/
def is_rare_transition (prev_jong next_cho : Nat) : Bool :=
  if prev_jong = 0 then false
  else if prev_jong = 17 ∧ next_cho = 17 then true
  else if prev_jong = 7 ∧ next_cho = 16 then true
  else if prev_jong = 1 ∧ next_cho = 15 then true
  else if prev_jong = 17 ∧ next_cho = 8 then true
  else if prev_jong = 7 ∧ next_cho = 4 then true
  else if prev_jong = 22 ∧ next_cho = 13 then true
  else if prev_jong = 23 ∧ next_cho = 14 then true
  else if prev_jong = 24 ∧ next_cho = 15 then true
  else if prev_jong = 25 ∧ next_cho = 16 then true
  else if prev_jong = 26 ∧ next_cho = 17 then true
  else false

/-- The per-character transition-count update of `check_syllable_structure`'s
loop. -/
def transStep (prevJong : Option Nat) (cho rare_transitions : Nat) : Nat :=
  match prevJong with
  | some prev =>
      if is_rare_transition prev cho then rare_transitions + 1
      else rare_transitions
  | none => rare_transitions

/-- The loop of `check_syllable_structure`, with its early `return false`
modelled as `none`; otherwise returns the final
`(total_syllables, rare_count, rare_transitions)`. -/
def cssLoop (text : List Nat) (consecutive_rare total_syllables rare_count
    rare_transitions : Nat) (prevJong : Option Nat) :
    Option (Nat × Nat × Nat) :=
  match text with
  | [] => some (total_syllables, rare_count, rare_transitions)
  | ch :: rest =>
    match decompose_syllable ch with
    | some (cho, jung, jong) =>
        let total_syllables := total_syllables + 1
        if is_rare_onset cho jung then
          let rare_count := rare_count + 1
          let consecutive_rare := consecutive_rare + 1
          if 2 ≤ consecutive_rare then none
          else
            cssLoop rest consecutive_rare total_syllables rare_count
              (transStep prevJong cho rare_transitions) (some jong)
        else
          cssLoop rest 0 total_syllables rare_count
            (transStep prevJong cho rare_transitions) (some jong)
    | none => cssLoop rest 0 total_syllables rare_count rare_transitions none

/-- `check_syllable_structure` from `src/ngram/syllable_validator.rs`. The
`f64` test `rare_count / total >= 0.5` is modelled exactly as
`2 * rare_count >= total` (these agree for all realizable counts). -/
def check_syllable_structure (text : List Nat) : Bool :=
  match cssLoop text 0 0 0 0 none with
  | none => false
  | some (total_syllables, rare_count, rare_transitions) =>
    if 0 < total_syllables ∧ total_syllables ≤ 2 * rare_count then false
    else if 2 ≤ rare_transitions then false
    else if total_syllables ≤ 3 ∧ 1 ≤ rare_transitions ∧ 1 ≤ rare_count then
      false
    else true

/-! ## Statistical validator (`src/ngram/validator.rs`) -/

/-- The `ValidationResult` struct. The `f64` n-gram score is modelled as a
rational. -/
structure ValidationResult where
  original : List Nat
  converted : List Nat
  has_incomplete_jamo : Bool
  has_unnatural_syllables : Bool
  ngram_score : Option Rat
  should_convert : Bool

/-- The `KoreanValidator` struct. The optional `NgramModel` together with the
smoothing configuration is abstracted as its scoring function
`score_with_config` (a transcendental `f64` log-probability, modelled as a
rational-valued function); `threshold` is `config.threshold`. -/
structure KoreanValidator where
  model : Option (List Nat → Rat)
  threshold : Rat

/-- `KoreanValidator::new` (no model, default `NgramConfig` threshold
`-10.0`). -/
def KoreanValidator.new : KoreanValidator :=
  { model := none, threshold := -10 }

/-- `KoreanValidator::score`. -/
def KoreanValidator.score (v : KoreanValidator) (korean_text : List Nat) :
    Option Rat :=
  v.model.map fun m => m korean_text

/-- `KoreanValidator::analyze` from `src/ngram/validator.rs`. -/
def KoreanValidator.analyze (v : KoreanValidator) (english_input : List Nat) :
    ValidationResult :=
  let converted := convert english_input
  let has_jamo := has_incomplete_jamo converted
  let syllable_valid := check_syllable_structure converted
  let score := v.score converted
  let should_convert := !has_jamo && !(converted == english_input) &&
    syllable_valid && (score.map fun s => decide (v.threshold ≤ s)).getD true
  { original := english_input
    converted := converted
    has_incomplete_jamo := has_jamo
    has_unnatural_syllables := !syllable_valid
    ngram_score := score
    should_convert := should_convert }

/-! ## Theorem for the validator claim -/

/-- **C3**: `analyze`'s `should_convert` is true exactly when every pipeline
stage passes: the conversion differs from the input, contains no
compatibility Jamo, passes the syllable-structure check, and either no
n-gram model is loaded or its score reaches the threshold. In particular a
model-less validator rejects "name" (conversion "ㅜ믇" contains a
compatibility Jamo) and "virus" (conversion "퍄견" fails the
syllable-structure check). -/
theorem analyze_should_convert_iff :
    (∀ (v : KoreanValidator) (s : List Nat),
      (v.analyze s).should_convert = true ↔
        (convert s ≠ s ∧ has_incomplete_jamo (convert s) = false ∧
         check_syllable_structure (convert s) = true ∧
         ∀ m, v.model = some m → v.threshold ≤ m (convert s))) ∧
    (KoreanValidator.new.analyze (str "name")).converted = str "ㅜ믇" ∧
    (KoreanValidator.new.analyze (str "name")).should_convert = false ∧
    (KoreanValidator.new.analyze (str "virus")).converted = str "퍄견" ∧
    (KoreanValidator.new.analyze (str "virus")).should_convert = false := by
  refine ⟨?_, by decide, by decide, by decide, by decide⟩
  intro v s
  unfold KoreanValidator.analyze KoreanValidator.score
  cases hmod : v.model with
  | none =>
      simp only [hmod, Option.map_none', Option.getD_none, Bool.and_true,
        Bool.and_eq_true, Bool.not_eq_true', beq_eq_false_iff_ne, ne_eq]
      constructor
      · rintro ⟨⟨hj, hne⟩, hs⟩
        exact ⟨hne, hj, hs, fun m hm => by simp at hm⟩
      · rintro ⟨hne, hj, hs, _⟩
        exact ⟨⟨hj, hne⟩, hs⟩
  | some m =>
      simp only [hmod, Option.map_some', Option.getD_some, Bool.and_eq_true,
        Bool.not_eq_true', beq_eq_false_iff_ne, ne_eq, decide_eq_true_eq,
        Option.some.injEq]
      constructor
      · rintro ⟨⟨⟨hj, hne⟩, hs⟩, hsc⟩
        exact ⟨hne, hj, hs, fun m' hm' => hm' ▸ hsc⟩
      · rintro ⟨hne, hj, hs, hsc⟩
        exact ⟨⟨⟨hj, hne⟩, hs⟩, hsc m rfl⟩

/-! ## Pattern data (`src/detection/patterns.rs`) -/

/-- `COMMON_ENGLISH_WORDS` from `src/detection/patterns.rs`, in source order
(the source inserts them into a `HashSet`; only membership matters, so the
duplicate entry "old" is harmless). -/
def COMMON_ENGLISH_WORDS : List (List Nat) :=
  [str "the", str "and", str "for", str "are", str "but", str "not",
   str "you", str "all", str "can", str "had", str "her", str "was",
   str "one", str "our", str "out", str "has", str "his", str "how",
   str "its", str "let", str "may", str "new", str "now", str "old",
   str "see", str "two", str "way", str "who", str "did", str "get",
   str "com", str "use", str "man", str "day", str "too", str "any",
   str "put", str "say", str "she", str "own", str "try", str "set",
   str "run", str "end", str "act", str "ask", str "big", str "buy",
   str "cut", str "far", str "few", str "got", str "him", str "hot",
   str "job", str "key", str "low", str "lot", str "off", str "pay",
   str "per", str "red", str "sit", str "six", str "ten", str "top",
   str "war", str "why", str "yes", str "yet", str "ago", str "air",
   str "art", str "bad", str "bed", str "bit", str "box", str "car",
   str "cup", str "dog", str "eat", str "eye", str "fly", str "fun",
   str "god", str "gun", str "hit", str "law", str "lie", str "map",
   str "oil", str "old", str "add", str "age", str "arm", str "bag",
   str "bar", str "bus", str "cry", str "die", str "dry", str "ear",
   str "egg", str "fan", str "fat", str "fit", str "gas", str "hat",
   str "ice", str "kid", str "lap", str "leg", str "lip", str "mix",
   str "net", str "nor", str "nut", str "odd", str "pan", str "pet",
   str "pie", str "pin", str "pop", str "pot", str "raw", str "row",
   str "sad", str "sea", str "sky", str "son", str "sun", str "tax",
   str "tea", str "tie", str "tip", str "via", str "wet", str "win",
   str "won", str "app", str "web", str "api", str "url", str "dev",
   str "that", str "with", str "have", str "this", str "will", str "your",
   str "from", str "they", str "been", str "call", str "come", str "made",
   str "find", str "long", str "down", str "side", str "more", str "each",
   str "said", str "time", str "very", str "when", str "make", str "only",
   str "here", str "must", str "into", str "year", str "take", str "them",
   str "some", str "then", str "than", str "look", str "also", str "well",
   str "back", str "over", str "such", str "good", str "give", str "most",
   str "just", str "even", str "work", str "know", str "life", str "hand",
   str "part", str "code", str "file", str "test", str "data", str "user",
   str "type", str "name", str "wifi", str "list", str "help", str "want",
   str "need", str "open", str "save", str "edit", str "view", str "show",
   str "hide", str "read", str "send", str "copy", str "move", str "text",
   str "link", str "next", str "home", str "page", str "form", str "true",
   str "null", str "void", str "self", str "func", str "main", str "init",
   str "free", str "size", str "loop", str "bool", str "byte", str "char",
   str "case", str "else", str "enum", str "goto", str "left", str "last",
   str "none", str "pass", str "push", str "pull", str "sort", str "stop",
   str "wait", str "wrap", str "exit", str "like", str "hello", str "world",
   str "there", str "which", str "their", str "would", str "about",
   str "these", str "could", str "other", str "after", str "first",
   str "never", str "where", str "those", str "being", str "every",
   str "under", str "think", str "still", str "while", str "found",
   str "great", str "right", str "three", str "place", str "thing",
   str "point", str "string", str "function", str "return", str "public",
   str "private", str "static", str "class", str "const", str "import",
   str "export", str "default", str "async", str "await", str "break",
   str "catch", str "throw", str "final", str "super", str "print",
   str "input", str "output", str "error", str "value", str "array",
   str "index", str "count", str "start", str "false", str "begin",
   str "check", str "clear", str "close", str "build", str "write",
   str "event", str "state", str "props", str "style", str "click",
   str "focus", str "fetch"]

/-- The 14 consonant keys from which `HANGUL_BIGRAMS` is built. -/
def hangulBigramConsonantKeys : List Char :=
  ['r', 's', 'e', 'f', 'a', 'q', 't', 'd', 'w', 'c', 'z', 'x', 'v', 'g']

/-- `HANGUL_BIGRAMS` from `src/detection/patterns.rs`: each of the 14
consonant keys followed by one of the vowel keys ㅏ(k) ㅓ(j) ㅗ(h) ㅜ(n)
ㅡ(m) ㅣ(l) ㅑ(i) ㅕ(u) ㅛ(y) ㅠ(b), as in the source's ten insertion
loops. -/
def HANGUL_BIGRAMS : List (List Nat) :=
  (['k', 'j', 'h', 'n', 'm', 'l', 'i', 'u', 'y', 'b'].map fun v =>
    hangulBigramConsonantKeys.map fun c => [key c, key v]).flatten

/-- `ENGLISH_BIGRAMS` from `src/detection/patterns.rs`. -/
def ENGLISH_BIGRAMS : List (List Nat) :=
  [str "th", str "he", str "in", str "er", str "an", str "re", str "on",
   str "at", str "en", str "nd", str "ti", str "es", str "or", str "te",
   str "of", str "ed", str "is", str "it", str "al", str "ar", str "st",
   str "to", str "nt", str "ng", str "se", str "ha", str "as", str "ou",
   str "io", str "le", str "ve", str "co", str "me", str "de", str "hi",
   str "ri", str "ro", str "ic", str "ne", str "ea", str "ra", str "ce",
   str "li", str "ch", str "ll", str "be", str "ma", str "si", str "om",
   str "ur"]

/-- `is_consonant_key` from `src/detection/patterns.rs`. -/
def is_consonant_key (c : Nat) : Bool := is_consonant c

/-- `is_vowel_key` from `src/detection/patterns.rs`. -/
def is_vowel_key (c : Nat) : Bool := is_vowel c

/-! ## Heuristic auto-detector (`src/detection/auto_detect.rs`)

The `f32` confidence arithmetic is modelled with exact rationals; only
comparisons of these scores are ever observed. `char::to_lowercase` /
`char::to_ascii_uppercase` are modelled on the ASCII range, which covers
every key the detector classifies. -/

/-- Rust `char::to_lowercase` restricted to ASCII. -/
def toLowerCp (c : Nat) : Nat := if 65 ≤ c ∧ c ≤ 90 then c + 32 else c

/-- Rust `char::to_ascii_uppercase`. -/
def toUpperAsciiCp (c : Nat) : Nat := if 97 ≤ c ∧ c ≤ 122 then c - 32 else c

/-- Rust `char::is_ascii_uppercase`. -/
def isAsciiUppercaseCp (c : Nat) : Bool := decide (65 ≤ c) && decide (c ≤ 90)

/-- Rust `char::is_ascii_lowercase`. -/
def isAsciiLowercaseCp (c : Nat) : Bool := decide (97 ≤ c) && decide (c ≤ 122)

/-- The UTF-8 byte size of a codepoint (Rust `str::len` counts bytes). -/
def utf8Size (c : Nat) : Nat :=
  if c < 0x80 then 1 else if c < 0x800 then 2 else if c < 0x10000 then 3
  else 4

/-- Rust `str::len` (UTF-8 byte length). -/
def utf8Len (s : List Nat) : Nat := (s.map utf8Size).sum

/-- The `AutoDetectorConfig` struct. -/
structure AutoDetectorConfig where
  threshold : Rat
  realtime_threshold : Rat
  min_length : Nat
  debounce_ms : Nat

/-- `AutoDetectorConfig::default`. -/
def AutoDetectorConfig.default : AutoDetectorConfig :=
  { threshold := 70, realtime_threshold := 80, min_length := 3,
    debounce_ms := 500 }

/-- The `AutoDetector` struct. -/
structure AutoDetector where
  config : AutoDetectorConfig
  enabled : Bool

/-- `AutoDetector::new`. -/
def AutoDetector.new (config : AutoDetectorConfig) : AutoDetector :=
  { config := config, enabled := true }

/-- `AutoDetector::with_defaults`. -/
def AutoDetector.with_defaults : AutoDetector :=
  AutoDetector.new AutoDetectorConfig.default

/-- The consonant/vowel counting loop of `calculate_cv_ratio_score` (the
`else if` means a key classified as consonant is not also counted as a
vowel). -/
def cvCounts (chars : List Nat) : Nat × Nat :=
  chars.foldl
    (fun acc c =>
      if is_consonant_key c || is_consonant_key (toUpperAsciiCp c) then
        (acc.1 + 1, acc.2)
      else if is_vowel_key c || is_vowel_key (toUpperAsciiCp c) then
        (acc.1, acc.2 + 1)
      else acc)
    (0, 0)

/-- `AutoDetector::calculate_cv_ratio_score` (0-30 points). -/
def calculate_cv_ratio_score (chars : List Nat) : Rat :=
  let counts := cvCounts chars
  let consonants := counts.1
  let vowels := counts.2
  let total := consonants + vowels
  if total = 0 then 0
  else
    let ratio : Rat := (consonants : Rat) / (total : Rat)
    if 2/5 ≤ ratio ∧ ratio ≤ 7/10 then 30
    else if 3/10 ≤ ratio ∧ ratio ≤ 4/5 then 20
    else if 1/5 ≤ ratio ∧ ratio ≤ 9/10 then 10
    else 0

/-- The adjacent character pairs of a buffer (Rust `windows(2)`). -/
def adjacentPairs : List Nat → List (List Nat)
  | a :: b :: rest => [a, b] :: adjacentPairs (b :: rest)
  | _ => []

/-- The bigram classification counts of `calculate_bigram_score`:
`(exclusive_hangul, exclusive_english, both_match, total_bigrams)`. -/
def bigramCounts (buffer : List Nat) : Nat × Nat × Nat × Nat :=
  (adjacentPairs buffer).foldl
    (fun acc bigram =>
      let is_hangul := bigram ∈ HANGUL_BIGRAMS
      let is_english := bigram ∈ ENGLISH_BIGRAMS
      if is_hangul ∧ is_english then
        (acc.1, acc.2.1, acc.2.2.1 + 1, acc.2.2.2 + 1)
      else if is_hangul then (acc.1 + 1, acc.2.1, acc.2.2.1, acc.2.2.2 + 1)
      else if is_english then (acc.1, acc.2.1 + 1, acc.2.2.1, acc.2.2.2 + 1)
      else (acc.1, acc.2.1, acc.2.2.1, acc.2.2.2 + 1))
    (0, 0, 0, 0)

/-- `AutoDetector::calculate_bigram_score` (0-40 points). -/
def calculate_bigram_score (buffer : List Nat) : Rat :=
  if utf8Len buffer < 2 then 0
  else
    let counts := bigramCounts buffer
    let exclusive_hangul := counts.1
    let exclusive_english := counts.2.1
    let both_match := counts.2.2.1
    let total_bigrams := counts.2.2.2
    if total_bigrams = 0 then 0
    else
      let exclusive_hangul_ratio : Rat :=
        (exclusive_hangul : Rat) / (total_bigrams : Rat)
      let exclusive_english_ratio : Rat :=
        (exclusive_english : Rat) / (total_bigrams : Rat)
      let english_total_ratio : Rat :=
        ((exclusive_english + both_match : Nat) : Rat) / (total_bigrams : Rat)
      let score :=
        if 1/2 < english_total_ratio then exclusive_hangul_ratio * 40
        else
          (exclusive_hangul_ratio - exclusive_english_ratio + 1) / 2 * 40
      min 40 (max 0 score)

/-- The alternation counting loop of `calculate_alternation_score`. -/
def alternationCount (chars : List Nat) : Nat :=
  (chars.foldl
    (fun (acc : Nat × Option Bool) c =>
      let is_cons := is_consonant_key c || is_consonant_key (toUpperAsciiCp c)
      let is_vow := is_vowel_key c || is_vowel_key (toUpperAsciiCp c)
      let alternations :=
        match acc.2 with
        | some prev =>
            if (prev ∧ is_vow) ∨ (¬prev ∧ is_cons) then acc.1 + 1 else acc.1
        | none => acc.1
      let prev_is_consonant :=
        if is_cons then some true else if is_vow then some false else acc.2
      (alternations, prev_is_consonant))
    (0, none)).1

/-- `AutoDetector::calculate_alternation_score` (0-30 points). -/
def calculate_alternation_score (chars : List Nat) : Rat :=
  if chars.length < 2 then 0
  else
    let alternations := alternationCount chars
    let max_alternations := chars.length - 1
    if max_alternations = 0 then 0
    else ((alternations : Rat) / (max_alternations : Rat)) * 30

/-- The longest run of vowel keys, for
`calculate_consecutive_vowel_penalty`. -/
def maxConsecutiveVowels (chars : List Nat) : Nat :=
  (chars.foldl
    (fun (acc : Nat × Nat) c =>
      if is_vowel_key c || is_vowel_key (toUpperAsciiCp c) then
        let cur := acc.2 + 1
        (max acc.1 cur, cur)
      else (acc.1, 0))
    (0, 0)).1

/-- `AutoDetector::calculate_consecutive_vowel_penalty` (0, 10 or 20). -/
def calculate_consecutive_vowel_penalty (chars : List Nat) : Rat :=
  let m := maxConsecutiveVowels chars
  if 4 ≤ m then 20 else if 3 ≤ m then 10 else 0

/-- `AutoDetector::get_confidence` (the method reads nothing from `self`). -/
def get_confidence (buffer : List Nat) : Rat :=
  if buffer = [] then 0
  else
    let buffer_lower := buffer.map toLowerCp
    let cv_score := calculate_cv_ratio_score buffer_lower
    let bigram_score := calculate_bigram_score buffer_lower
    let alternation_score := calculate_alternation_score buffer_lower
    let vowel_penalty := calculate_consecutive_vowel_penalty buffer_lower
    max 0 (cv_score + bigram_score + alternation_score - vowel_penalty)

/-- The suffix list of `has_english_pattern`. -/
def englishSuffixes : List (List Nat) :=
  [str "tion", str "ment", str "ness", str "ing", str "able", str "ful",
   str "less", str "ous", str "ive", str "ence", str "ance"]

/-- The 5-letter-plus prefix list of `has_english_pattern`. -/
def englishPrefixes : List (List Nat) :=
  [str "un", str "re", str "pre", str "dis", str "mis"]

/-- `has_english_pattern` from `src/detection/auto_detect.rs`. -/
def has_english_pattern (buffer : List Nat) : Bool :=
  if 2 ≤ utf8Len buffer ∧ buffer.all isAsciiUppercaseCp then true
  else if 3 ≤ buffer.length ∧ isAsciiLowercaseCp (buffer.headD 0) ∧
      buffer.tail.any isAsciiUppercaseCp then true
  else
    let lower := buffer.map toLowerCp
    if englishSuffixes.any fun suf =>
        decide (utf8Len suf < utf8Len lower) && suf.isSuffixOf lower then true
    else if 5 ≤ utf8Len lower ∧ englishPrefixes.any fun pre =>
        pre.isPrefixOf lower then true
    else false

/-- `AutoDetector::should_convert` from `src/detection/auto_detect.rs`. -/
def AutoDetector.should_convert (d : AutoDetector) (buffer : List Nat) :
    Bool :=
  if !d.enabled then false
  else if utf8Len buffer < d.config.min_length then false
  else if buffer.map toLowerCp ∈ COMMON_ENGLISH_WORDS then false
  else
    let confidence := get_confidence buffer
    if confidence < 90 ∧ has_english_pattern buffer then false
    else
      let threshold :=
        if utf8Len buffer ≤ 4 then d.config.threshold + 10
        else d.config.threshold
      decide (threshold ≤ confidence)

/-- `AutoDetector::should_convert_realtime` from
`src/detection/auto_detect.rs`. -/
def AutoDetector.should_convert_realtime (d : AutoDetector)
    (buffer : List Nat) : Bool :=
  if !d.enabled then false
  else if utf8Len buffer < d.config.min_length then false
  else if buffer.map toLowerCp ∈ COMMON_ENGLISH_WORDS then false
  else
    let confidence := get_confidence buffer
    if confidence < 90 ∧ has_english_pattern buffer then false
    else
      let threshold :=
        if utf8Len buffer ≤ 4 then d.config.realtime_threshold + 10
        else d.config.realtime_threshold
      decide (threshold ≤ confidence)

/-! ## Theorem for the detector claim -/

/-- **C8**: for every `AutoDetector` (any configuration, enabled or not) and
every buffer whose lowercased form is in the common-English-word denylist,
both `should_convert` and `should_convert_realtime` return `false`. -/
theorem denylist_rejected (d : AutoDetector) (buffer : List Nat)
    (h : buffer.map toLowerCp ∈ COMMON_ENGLISH_WORDS) :
    d.should_convert buffer = false ∧
    d.should_convert_realtime buffer = false := by
  constructor
  · simp only [AutoDetector.should_convert]
    split_ifs <;> rfl
  · simp only [AutoDetector.should_convert_realtime]
    split_ifs <;> rfl

/-- Witness for `denylist_rejected`: the default detector rejects the
denylist word "the". -/
theorem denylist_rejected_witness :
    AutoDetector.with_defaults.should_convert (str "the") = false ∧
    AutoDetector.with_defaults.should_convert_realtime (str "the") = false :=
  denylist_rejected AutoDetector.with_defaults (str "the") (by decide)

/-! ## Worker thread, Convert branch (`src/main.rs`)

The worker-visible state is the conversion history and the shared
replacing-in-progress flag; the external text-replacement sink
(`replace_text`) is a parameter, per the spec's Text Replacement Sink
interface. `switch_attempted` is a ghost marker recording whether
`switch_to_korean_on_main` was invoked while processing the item. -/

/-- The `ConversionHistory` struct of `src/platform/event_tap.rs`. -/
structure ConversionHistory where
  original : List Nat
  converted : List Nat
deriving DecidableEq, Repr

/-- The state the worker's Convert branch can observe and mutate. -/
structure WorkerState where
  history : Option ConversionHistory
  is_replacing : Bool
deriving DecidableEq, Repr

/-- The state after a Convert work item, plus the ghost `switch_attempted`
marker. -/
structure ConvertOutcome where
  history : Option ConversionHistory
  is_replacing : Bool
  switch_attempted : Bool
deriving DecidableEq, Repr

/-- The `WorkItem::Convert` branch of the worker loop in `src/main.rs`:
analyze the buffer, skip when nothing converts (or a non-manual result is a
single character), set the replacing flag, call the sink; on sink error clear
the flag and continue (no switch, no history save); on success switch layout,
clear the flag and save the history. -/
def processConvert (v : KoreanValidator)
    (replace_text : Nat → List Nat → Except String Unit)
    (st : WorkerState) (buffer : List Nat) (is_manual : Bool) :
    ConvertOutcome :=
  let result := v.analyze buffer
  let hangul := result.converted
  if hangul = buffer then
    { history := st.history, is_replacing := st.is_replacing,
      switch_attempted := false }
  else if !is_manual ∧ hangul.length ≤ 1 then
    { history := st.history, is_replacing := st.is_replacing,
      switch_attempted := false }
  else
    -- is_replacing.store(true); then the sink call
    let backspace_count := buffer.length
    match replace_text backspace_count hangul with
    | .error _ =>
        -- abort: clear the flag, log, continue (history untouched, no switch)
        { history := st.history, is_replacing := false,
          switch_attempted := false }
    | .ok _ =>
        -- sleep, switch_to_korean_on_main(), clear the flag, save history
        { history := some { original := buffer, converted := hangul },
          is_replacing := false, switch_attempted := true }

/-! ## Theorem for the worker claim -/

/-- **C9**: when the Convert branch reaches the text-replacement sink (the
conversion is non-trivial and not suppressed) and the sink returns an error,
the conversion is aborted: the stored history is exactly what it was before
the item (`save_conversion_history` is not called), the replacing-in-progress
flag is cleared, and no layout switch is attempted for that item. -/
theorem convert_sink_error_aborts (v : KoreanValidator)
    (replace_text : Nat → List Nat → Except String Unit) (st : WorkerState)
    (buffer : List Nat) (is_manual : Bool) (e : String)
    (hconv : convert buffer ≠ buffer)
    (hlen : is_manual = true ∨ 1 < (convert buffer).length)
    (hsink : replace_text buffer.length (convert buffer) = .error e) :
    (processConvert v replace_text st buffer is_manual).history = st.history ∧
    (processConvert v replace_text st buffer is_manual).is_replacing
      = false ∧
    (processConvert v replace_text st buffer is_manual).switch_attempted
      = false := by
  simp only [processConvert, KoreanValidator.analyze]
  rw [if_neg hconv]
  rw [if_neg (by
    rintro ⟨hb, hl⟩
    rcases hlen with hm | hm
    · rw [hm] at hb; simp at hb
    · omega)]
  rw [hsink]
  exact ⟨rfl, rfl, rfl⟩

/-- Witness for `convert_sink_error_aborts`: a sink that always fails, the
model-less validator, a pending history record and the buffer "rkskek". -/
theorem convert_sink_error_aborts_witness :
    (processConvert KoreanValidator.new (fun _ _ => .error "fail")
        { history := some { original := str "rk", converted := str "가" },
          is_replacing := false }
        (str "rkskek") false).history
      = some { original := str "rk", converted := str "가" } ∧
    (processConvert KoreanValidator.new (fun _ _ => .error "fail")
        { history := some { original := str "rk", converted := str "가" },
          is_replacing := false }
        (str "rkskek") false).is_replacing = false ∧
    (processConvert KoreanValidator.new (fun _ _ => .error "fail")
        { history := some { original := str "rk", converted := str "가" },
          is_replacing := false }
        (str "rkskek") false).switch_attempted = false :=
  convert_sink_error_aborts KoreanValidator.new (fun _ _ => .error "fail")
    { history := some { original := str "rk", converted := str "가" },
      is_replacing := false }
    (str "rkskek") false "fail" (by decide) (by decide) rfl

end Koing
